import Mathlib

/-
Verification of the pluggable consensus boundary of the sawtooth validator,
embedded from validator/sawtooth_validator/journal/consensus/consensus.py.

The source module declares three abstract interfaces (BlockPublisherInterface,
BlockVerifierInterface, ForkResolverInterface) under ABCMeta, every declared
method abstract with a bare pass body.  The first part of this file embeds
that module as data together with the relevant Python semantics (pass bodies,
ABCMeta instantiation).  The second part models, from the specification, the
contracts that concrete consensus implementations must satisfy (the source
holds only the interface declarations), and proves the claimed properties
about those models.
-/

namespace Consensus

/-- Python values relevant to this module: the method bodies of the interface
classes are all a bare pass statement, which evaluates to None; concrete
implementations are documented to return booleans. -/
inductive PyValue where
  | none
  | bool (b : Bool)
deriving DecidableEq, Repr

/-- A Python method body as it occurs in consensus.py: every body in the
module is a bare pass statement. -/
inductive MethodBody where
  | passBody
deriving DecidableEq, Repr

/-- Running a method body: pass performs no computation and evaluates to
None. -/
def MethodBody.run : MethodBody → PyValue
  | .passBody => PyValue.none

/-- Whether executing the body can raise an exception: a bare pass statement
never raises, so the base classes perform no runtime checking. -/
def MethodBody.raisesError : MethodBody → Bool
  | .passBody => false

/-- Method names declared in consensus.py (dunderInit stands for the Python
name of the constructor). -/
inductive PyName where
  | dunderInit
  | initialize_block
  | check_publish_block
  | finalize_block
  | verify_block
  | compare_forks
deriving DecidableEq, Repr

/-- Parameter names occurring in the method signatures of consensus.py. -/
inductive ParamName where
  | self
  | block_cache
  | state_view
  | batch_publisher
  | block_header
  | block
  | cur_fork_head
  | new_fork_head
deriving DecidableEq, Repr

/-- The class names declared in consensus.py. -/
inductive ClassName where
  | BlockPublisherInterface
  | BlockVerifierInterface
  | ForkResolverInterface
deriving DecidableEq, Repr

/-- A method declaration: its name, its positional parameters in order, the
abstractmethod marker, and its body. -/
structure MethodDecl where
  name : PyName
  params : List ParamName
  isAbstract : Bool
  body : MethodBody
deriving DecidableEq, Repr

/-- A class declaration: its name, whether its metaclass is ABCMeta, and its
declared methods in source order. -/
structure ClassDecl where
  name : ClassName
  usesABCMeta : Bool
  methods : List MethodDecl
deriving DecidableEq, Repr

/-- BlockPublisherInterface as declared in consensus.py: metaclass ABCMeta;
abstract methods dunderInit(self, block_cache, state_view, batch_publisher),
initialize_block(self, block_header), check_publish_block(self, block_header)
and finalize_block(self, block_header), each with a pass body. -/
def blockPublisherInterface : ClassDecl :=
  { name := ClassName.BlockPublisherInterface
    usesABCMeta := true
    methods :=
      [ ⟨PyName.dunderInit,
          [ParamName.self, ParamName.block_cache, ParamName.state_view,
            ParamName.batch_publisher], true, MethodBody.passBody⟩
      , ⟨PyName.initialize_block, [ParamName.self, ParamName.block_header],
          true, MethodBody.passBody⟩
      , ⟨PyName.check_publish_block, [ParamName.self, ParamName.block_header],
          true, MethodBody.passBody⟩
      , ⟨PyName.finalize_block, [ParamName.self, ParamName.block_header],
          true, MethodBody.passBody⟩ ] }

/-- BlockVerifierInterface as declared in consensus.py: metaclass ABCMeta;
abstract methods dunderInit(self, block_cache, state_view) and
verify_block(self, block), each with a pass body. -/
def blockVerifierInterface : ClassDecl :=
  { name := ClassName.BlockVerifierInterface
    usesABCMeta := true
    methods :=
      [ ⟨PyName.dunderInit,
          [ParamName.self, ParamName.block_cache, ParamName.state_view],
          true, MethodBody.passBody⟩
      , ⟨PyName.verify_block, [ParamName.self, ParamName.block],
          true, MethodBody.passBody⟩ ] }

/-- ForkResolverInterface as declared in consensus.py: metaclass ABCMeta;
abstract methods dunderInit(self, block_cache) and
compare_forks(self, cur_fork_head, new_fork_head), each with a pass body. -/
def forkResolverInterface : ClassDecl :=
  { name := ClassName.ForkResolverInterface
    usesABCMeta := true
    methods :=
      [ ⟨PyName.dunderInit, [ParamName.self, ParamName.block_cache],
          true, MethodBody.passBody⟩
      , ⟨PyName.compare_forks,
          [ParamName.self, ParamName.cur_fork_head, ParamName.new_fork_head],
          true, MethodBody.passBody⟩ ] }

/-- The three classes of consensus.py in source order. -/
def consensusModule : List ClassDecl :=
  [blockPublisherInterface, blockVerifierInterface, forkResolverInterface]

/-- The names of the methods of a class that are (still) abstract. -/
def ClassDecl.abstractMethodNames (c : ClassDecl) : List PyName :=
  (c.methods.filter (fun m => m.isAbstract)).map (fun m => m.name)

/-- Python runtime errors relevant here. -/
inductive PyError where
  | typeError
deriving DecidableEq, Repr

/-- An instance object, recording only the class it was built from. -/
structure PyInstance where
  ofClass : ClassName
deriving DecidableEq, Repr

/-- Python semantics of calling a class whose metaclass is ABCMeta: if any
declared method is still abstract, instantiation raises TypeError; otherwise
an instance is produced. -/
def instantiate (c : ClassDecl) : Except PyError PyInstance :=
  if c.usesABCMeta ∧ c.abstractMethodNames ≠ [] then
    Except.error PyError.typeError
  else
    Except.ok ⟨c.name⟩

/-- Python semantics of subclassing: each inherited method is replaced by an
override of the same name when one is given, and kept (still abstract if it
was) otherwise. -/
def ClassDecl.subclass (c : ClassDecl) (overrides : List MethodDecl) :
    ClassDecl :=
  { c with methods := c.methods.map (fun m =>
      match overrides.find? (fun o => o.name == m.name) with
      | some o => o
      | Option.none => m) }

/-- Looks up a declared method of a class by name. -/
def ClassDecl.findMethod (c : ClassDecl) (n : PyName) : Option MethodDecl :=
  c.methods.find? (fun m => m.name == n)

/-- Modelled from the spec: the consensus payload, an algorithm-private blob
written by the publisher at finalize and read back by the verifier.  The
reference algorithm records the last block number for which its proof stays
valid, so that an expired proof is checkable. -/
structure ConsensusPayload where
  proofValidUntil : Nat
deriving DecidableEq, Repr

/-- Modelled from the spec: a sealed BlockWrapper as handed to the verifier
and the fork resolver.  It carries a unique block identifier, the block
number, the identifier of the predecessor block (none for the genesis
block), the signer identity, the decoded consensus payload (none models a
payload the algorithm cannot decode), and the precomputed fork-comparison
weight. -/
structure BlockWrapper where
  ident : Nat
  block_num : Nat
  previous_id : Option Nat
  signer_id : Nat
  payload : Option ConsensusPayload
  weight : Nat
deriving DecidableEq, Repr

/-- Modelled from the spec: a read-only point-in-time snapshot of committed
state, scoped to one specific block.  For the verifier this is the state as
of the predecessor of the block under validation; it records which block it
is scoped to and which signer identities the committed state makes eligible. -/
structure StateView where
  asOfBlockId : Nat
  eligibleSigners : List Nat
deriving DecidableEq, Repr

/-- Modelled from the spec: the block cache, a key-value association from
block identifier to BlockWrapper, owned by the chain controller and handed
to consensus components as a read-only capability. -/
def BlockCache : Type := List (Nat × BlockWrapper)

/-- Lookup of a block identifier in the cache. -/
def lookupBlock (cache : BlockCache) (id : Nat) : Option BlockWrapper :=
  match cache with
  | [] => Option.none
  | (k, b) :: rest => if k = id then some b else lookupBlock rest id

/-- Modelled from the spec: the consensus rule that the payload decoded from
the sealed block is well formed. -/
def payloadWellFormed (b : BlockWrapper) : Bool :=
  b.payload.isSome

/-- Modelled from the spec: the consensus rule that the proof recorded in the
payload has not expired for this block number. -/
def proofValid (b : BlockWrapper) : Bool :=
  match b.payload with
  | some p => decide (b.block_num ≤ p.proofValidUntil)
  | Option.none => false

/-- Modelled from the spec: the consensus rule that the signer of the block
is eligible according to the committed state of the predecessor. -/
def signerEligible (sv : StateView) (b : BlockWrapper) : Bool :=
  sv.eligibleSigners.contains b.signer_id

/-- Modelled from the spec: the consensus rule that the predecessor reference
recorded on the block is not stale: it names exactly the block whose state
the verifier was scoped to. -/
def predecessorFresh (sv : StateView) (b : BlockWrapper) : Bool :=
  b.previous_id == some sv.asOfBlockId

/-- Modelled from the spec: the reference verify_block, a pure function of
the sealed block, the read-only cache capability and the predecessor state
view.  It evaluates the consensus rules in turn and returns the verdict. -/
def verify_block (cache : BlockCache) (sv : StateView) (b : BlockWrapper) :
    Bool :=
  match b.payload with
  | Option.none => false
  | some p =>
      if b.block_num ≤ p.proofValidUntil then
        if sv.eligibleSigners.contains b.signer_id then
          b.previous_id == some sv.asOfBlockId
        else false
      else false

/-- Modelled from the spec: operational failures of verification, signaled
on a channel distinct from the boolean verdict. -/
inductive VerifyError where
  | unreadableBlock
  | missingAncestor
deriving DecidableEq, Repr

/-- Modelled from the spec: a block as received from the network, before
structural decoding; decoding a structurally unreadable block yields none. -/
structure RawBlock where
  decoded : Option BlockWrapper
deriving DecidableEq, Repr

/-- Modelled from the spec: verification as exposed to the chain controller.
A structurally unreadable block, or a predecessor missing from the cache in
violation of the cache invariant, is reported as a distinct error; the
boolean verdict of verify_block is produced only when the block could be
evaluated. -/
def verify_block_checked (cache : BlockCache) (sv : StateView)
    (raw : RawBlock) : Except VerifyError Bool :=
  match raw.decoded with
  | Option.none => Except.error VerifyError.unreadableBlock
  | some b =>
      match b.previous_id with
      | Option.none => Except.ok (verify_block cache sv b)
      | some pid =>
          match lookupBlock cache pid with
          | Option.none => Except.error VerifyError.missingAncestor
          | some _ => Except.ok (verify_block cache sv b)

/-- Modelled from the spec: the lifecycle phases of a candidate block held by
a publisher instance: Uninitialized, Initialized, Ready (a poll returned
true), Finalized, Abandoned. -/
inductive PubPhase where
  | uninitialized
  | initialized
  | ready
  | finalized
  | abandoned
deriving DecidableEq, Repr

/-- Modelled from the spec: the unsealed, mutable block header owned by the
publisher during construction; the consensus field is written by
finalize_block. -/
structure BlockHeader where
  previous_id : Option Nat
  block_num : Nat
  signer_id : Nat
  consensus : Option ConsensusPayload
deriving DecidableEq, Repr

/-- Modelled from the spec: the internal state of a publisher instance.  The
phase tracks the lifecycle; shouldBuild is the decision of the algorithm at
initialize time; pollsUntilReady counts the polls remaining before the claim
condition is met; lateFailure models the rare late-breaking condition that
makes finalize abandon the candidate; proofGrace parameterizes the payload
the algorithm will record. -/
structure PublisherState where
  phase : PubPhase
  shouldBuild : Bool
  pollsUntilReady : Nat
  lateFailure : Bool
  proofGrace : Nat
deriving DecidableEq, Repr

/-- Modelled from the spec: a contract violation detected by a publisher
implementation when the controller breaks the mandated call ordering. -/
inductive LifecycleError where
  | calledBeforeInitialize
  | calledOnAbandoned
  | calledAfterFinalize
  | finalizeBeforeReady
  | initializeTwice
deriving DecidableEq, Repr

/-- Modelled from the spec: initialize_block.  On a fresh instance it either
begins building (returns true, entering the Initialized phase) or declines
(returns false, abandoning the attempt); on any other phase the call is a
detected contract violation. -/
def initialize_block (s : PublisherState) (h : BlockHeader) :
    Except LifecycleError (PublisherState × Bool) :=
  match s.phase with
  | PubPhase.uninitialized =>
      if s.shouldBuild then
        Except.ok ({ s with phase := PubPhase.initialized }, true)
      else
        Except.ok ({ s with phase := PubPhase.abandoned }, false)
  | _ => Except.error LifecycleError.initializeTwice

/-- Modelled from the spec: check_publish_block, a non-blocking poll.  It is
legal only after a true-returning initialize; it returns true once the claim
condition is met (entering the Ready phase) and false before then.  Before
initialize, or after abandonment or finalize, the call is a detected
contract violation. -/
def check_publish_block (s : PublisherState) :
    Except LifecycleError (PublisherState × Bool) :=
  match s.phase with
  | PubPhase.uninitialized => Except.error LifecycleError.calledBeforeInitialize
  | PubPhase.abandoned => Except.error LifecycleError.calledOnAbandoned
  | PubPhase.finalized => Except.error LifecycleError.calledAfterFinalize
  | PubPhase.ready => Except.ok ({ s with phase := PubPhase.ready }, true)
  | PubPhase.initialized =>
      match s.pollsUntilReady with
      | 0 => Except.ok ({ s with phase := PubPhase.ready }, true)
      | n + 1 => Except.ok ({ s with pollsUntilReady := n }, false)

/-- Modelled from the spec: finalize_block.  It is legal only in the Ready
phase (after a true-returning poll); it writes the consensus payload into
the header and authorizes sealing, or abandons the candidate on a
late-breaking failure.  Any other phase is a detected contract violation, so
no sealed block is ever produced from an illegal call. -/
def finalize_block (s : PublisherState) (h : BlockHeader) :
    Except LifecycleError (PublisherState × Bool × BlockHeader) :=
  match s.phase with
  | PubPhase.ready =>
      if s.lateFailure then
        Except.ok ({ s with phase := PubPhase.abandoned }, false, h)
      else
        Except.ok ({ s with phase := PubPhase.finalized }, true,
          { h with consensus := some ⟨h.block_num + s.proofGrace⟩ })
  | PubPhase.uninitialized => Except.error LifecycleError.calledBeforeInitialize
  | PubPhase.abandoned => Except.error LifecycleError.calledOnAbandoned
  | PubPhase.finalized => Except.error LifecycleError.calledAfterFinalize
  | PubPhase.initialized => Except.error LifecycleError.finalizeBeforeReady

/-- Modelled from the spec: a verifier instance holds only the read-only
capabilities it was constructed with; the instance identifier and the
optional resident publisher record which live objects happen to exist in the
process, and the verdict must not depend on them. -/
structure VerifierInstance where
  block_cache : BlockCache
  state_view : StateView
  instanceId : Nat
  residentPublisher : Option PublisherState

/-- The verdict computed by a verifier instance: the pure reference
verify_block applied to the capabilities the instance was constructed
with. -/
def VerifierInstance.verify (v : VerifierInstance) (b : BlockWrapper) : Bool :=
  verify_block v.block_cache v.state_view b

/-- Modelled from the spec: the reference compare_forks, following the
documented ordering rule: greater accumulated weight wins; ties are broken
by the lower block identifier.  Returns true when the new fork head should
replace the current one. -/
def compare_forks (cur_fork_head new_fork_head : BlockWrapper) : Bool :=
  if cur_fork_head.weight < new_fork_head.weight then true
  else if new_fork_head.weight < cur_fork_head.weight then false
  else decide (new_fork_head.ident < cur_fork_head.ident)

/-- Modelled from the spec: the identifiers that are ancestors of a block
through the cache: the predecessor of the block itself, and the predecessor
of any ancestor resolved in the cache. -/
inductive AncestorId (cache : BlockCache) (b : BlockWrapper) : Nat → Prop where
  | pred (pid : Nat) : b.previous_id = some pid → AncestorId cache b pid
  | step (pid qid : Nat) (p : BlockWrapper) :
      AncestorId cache b pid → lookupBlock cache pid = some p →
      p.previous_id = some qid → AncestorId cache b qid

/-- Modelled from the spec: the ancestor-completeness invariant the chain
controller maintains on the cache it hands to a consensus component together
with a block: the predecessor of the handed block, and the predecessor of
every block stored in the cache, is itself present in the cache. -/
def PredecessorClosed (cache : BlockCache) (b : BlockWrapper) : Prop :=
  (∀ pid, b.previous_id = some pid → ∃ p, lookupBlock cache pid = some p) ∧
  (∀ id bl pid, lookupBlock cache id = some bl →
    bl.previous_id = some pid → ∃ p, lookupBlock cache pid = some p)

/-- Helper: an ABCMeta class with a nonempty list of abstract methods raises
TypeError on instantiation. -/
theorem instantiate_error_of_abstract (c : ClassDecl)
    (h1 : c.usesABCMeta = true) (h2 : c.abstractMethodNames ≠ []) :
    instantiate c = Except.error PyError.typeError := by
  simp [instantiate, h1, h2]

/-- Helper: subclassing does not change the metaclass. -/
theorem subclass_usesABCMeta (c : ClassDecl) (ov : List MethodDecl) :
    (c.subclass ov).usesABCMeta = c.usesABCMeta :=
  rfl

/-- Claim C9: each of the three interface classes of consensus.py uses
ABCMeta, every declared method including the constructor is abstract, direct
instantiation fails with TypeError, and instantiating any subclass that
leaves some abstract method unoverridden also fails with TypeError. -/
theorem interfaces_not_instantiable (c : ClassDecl)
    (hc : c ∈ consensusModule) :
    c.usesABCMeta = true ∧
    (∀ m ∈ c.methods, m.isAbstract = true) ∧
    c.findMethod PyName.dunderInit ≠ Option.none ∧
    instantiate c = Except.error PyError.typeError ∧
    (∀ ov : List MethodDecl, (c.subclass ov).abstractMethodNames ≠ [] →
      instantiate (c.subclass ov) = Except.error PyError.typeError) := by
  have hcases : c = blockPublisherInterface ∨ c = blockVerifierInterface ∨
      c = forkResolverInterface := by
    simpa [consensusModule] using hc
  refine ⟨?_, ?_, ?_, ?_, fun ov hne => instantiate_error_of_abstract _ ?_ hne⟩ <;>
    rcases hcases with rfl | rfl | rfl <;> first | decide | rfl

/-- Witness for claim C9: BlockPublisherInterface belongs to the module,
cannot be instantiated, and a subclass overriding nothing cannot either. -/
theorem interfaces_not_instantiable_witness :
    instantiate blockPublisherInterface = Except.error PyError.typeError ∧
    instantiate (blockPublisherInterface.subclass []) =
      Except.error PyError.typeError :=
  have h := interfaces_not_instantiable blockPublisherInterface (by decide)
  ⟨h.2.2.2.1, h.2.2.2.2 [] (by decide)⟩

/-- Claim C10: every method body in consensus.py is a bare pass, a no-op
that evaluates to None rather than to a boolean and raises nothing, so the
base classes enforce none of the documented contracts at runtime. -/
theorem method_bodies_are_pass (c : ClassDecl) (m : MethodDecl)
    (hc : c ∈ consensusModule) (hm : m ∈ c.methods) :
    m.body = MethodBody.passBody ∧
    m.body.run = PyValue.none ∧
    (∀ b : Bool, m.body.run ≠ PyValue.bool b) ∧
    m.body.raisesError = false := by
  cases hb : m.body
  exact ⟨rfl, rfl, by decide, rfl⟩

/-- Witness for claim C10: the initialize_block declaration of
BlockPublisherInterface has a pass body evaluating to None. -/
theorem method_bodies_are_pass_witness :
    (⟨PyName.initialize_block, [ParamName.self, ParamName.block_header],
        true, MethodBody.passBody⟩ : MethodDecl).body.run = PyValue.none :=
  (method_bodies_are_pass blockPublisherInterface
    ⟨PyName.initialize_block, [ParamName.self, ParamName.block_header],
      true, MethodBody.passBody⟩ (by decide) (by decide)).2.1

/-- Claim C7: the constructor of ForkResolverInterface takes exactly the
parameters (self, block_cache), and no method of the class takes a
state_view parameter: the resolver is built from the read-only block cache
capability alone. -/
theorem fork_resolver_no_state_view :
    (forkResolverInterface.findMethod PyName.dunderInit).map MethodDecl.params
      = some [ParamName.self, ParamName.block_cache] ∧
    (forkResolverInterface.methods.map MethodDecl.params).all
      (fun ps => !ps.contains ParamName.state_view) = true := by
  decide

/-- Claim C1: for the reference fork resolver modelled from the spec, on any
two fork heads that are not the identical chain (distinct block
identifiers), compare_forks answers in the two argument orders are opposite
booleans: one true, the other false. -/
theorem compare_forks_opposite (A B : BlockWrapper)
    (hne : A.ident ≠ B.ident) :
    compare_forks A B = !compare_forks B A := by
  unfold compare_forks
  rcases Nat.lt_trichotomy A.weight B.weight with hw | hw | hw
  · simp [hw, Nat.lt_asymm hw]
  · have hni : ¬ A.weight < B.weight := by omega
    have hni2 : ¬ B.weight < A.weight := by omega
    rcases Nat.lt_trichotomy A.ident B.ident with hi | hi | hi
    · simp [hni, hni2, hi, Nat.lt_asymm hi]
    · exact absurd hi hne
    · simp [hni, hni2, hi, Nat.lt_asymm hi]
  · simp [hw, Nat.lt_asymm hw]

/-- Witness for claim C1: two equal-weight fork heads with identifiers 1 and
2 are resolved oppositely in the two argument orders. -/
theorem compare_forks_opposite_witness :
    compare_forks ⟨1, 1, Option.none, 0, Option.none, 5⟩
        ⟨2, 1, Option.none, 0, Option.none, 5⟩ =
      !compare_forks ⟨2, 1, Option.none, 0, Option.none, 5⟩
        ⟨1, 1, Option.none, 0, Option.none, 5⟩ :=
  compare_forks_opposite _ _ (by decide)

/-- Claim C2: the verdict of verify_block is deterministic: two verifier
instances constructed with the same block cache and the same predecessor
state view return the identical boolean for the same block, whatever their
instance identity and whether or not a live publisher is resident. -/
theorem verify_block_deterministic (v1 v2 : VerifierInstance)
    (b : BlockWrapper)
    (hcache : v1.block_cache = v2.block_cache)
    (hstate : v1.state_view = v2.state_view) :
    v1.verify b = v2.verify b := by
  unfold VerifierInstance.verify
  rw [hcache, hstate]

/-- Witness for claim C2: two separately constructed verifier instances with
the same capabilities, one with no resident publisher and one holding a
finalized publisher, agree on a concrete block. -/
theorem verify_block_deterministic_witness :
    VerifierInstance.verify ⟨[], ⟨0, [1]⟩, 0, Option.none⟩
        ⟨5, 1, some 0, 1, some ⟨3⟩, 2⟩ =
      VerifierInstance.verify
        ⟨[], ⟨0, [1]⟩, 1, some ⟨PubPhase.finalized, true, 0, false, 0⟩⟩
        ⟨5, 1, some 0, 1, some ⟨3⟩, 2⟩ :=
  verify_block_deterministic _ _ _ rfl rfl

/-- Claim C3: verify_block returns true exactly when every consensus rule
holds: the payload decodes, the proof has not expired, the signer is
eligible in the predecessor state, and the predecessor reference is the
block the state view is scoped to; any violation yields false. -/
theorem verify_block_iff_rules (cache : BlockCache) (sv : StateView)
    (b : BlockWrapper) :
    verify_block cache sv b = true ↔
      (payloadWellFormed b = true ∧ proofValid b = true ∧
        signerEligible sv b = true ∧ predecessorFresh sv b = true) := by
  unfold verify_block payloadWellFormed proofValid signerEligible
    predecessorFresh
  cases hb : b.payload with
  | none => simp
  | some p =>
      by_cases hpr : b.block_num ≤ p.proofValidUntil <;>
        by_cases hsig : sv.eligibleSigners.contains b.signer_id = true <;>
          simp [hpr, hsig]

/-- Claim C4: operational failures are signaled on a channel distinct from
the boolean verdict: an ok false result arises only from a block that
decoded and was evaluated to consensus-invalid, while an unreadable block or
a predecessor missing from the cache yields a dedicated error value, never
false. -/
theorem verify_error_channel_distinct (cache : BlockCache) (sv : StateView)
    (raw : RawBlock) :
    (verify_block_checked cache sv raw = Except.ok false →
      ∃ b, raw.decoded = some b ∧ verify_block cache sv b = false) ∧
    (raw.decoded = Option.none →
      verify_block_checked cache sv raw =
        Except.error VerifyError.unreadableBlock) ∧
    (∀ b pid, raw.decoded = some b → b.previous_id = some pid →
      lookupBlock cache pid = Option.none →
      verify_block_checked cache sv raw =
        Except.error VerifyError.missingAncestor) := by
  refine ⟨?_, ?_, ?_⟩
  · intro hok
    unfold verify_block_checked at hok
    split at hok
    · simp at hok
    · rename_i b hd
      refine ⟨b, hd, ?_⟩
      split at hok
      · simpa using hok
      · split at hok
        · simp at hok
        · simpa using hok
  · intro hd
    simp [verify_block_checked, hd]
  · intro b pid hd hp hl
    simp [verify_block_checked, hd, hp, hl]

/-- Witness for claim C4: a structurally unreadable raw block is reported as
an unreadableBlock error, not as a false verdict. -/
theorem verify_error_channel_distinct_witness :
    verify_block_checked [] ⟨0, []⟩ ⟨Option.none⟩ =
      Except.error VerifyError.unreadableBlock :=
  (verify_error_channel_distinct [] ⟨0, []⟩ ⟨Option.none⟩).2.1 rfl

/-- Claim C5: on a publisher instance whose initialize_block has not been
called and returned true (phase Uninitialized, or Abandoned after a false
initialize), both check_publish_block and finalize_block are rejected with a
detected contract violation, and finalize never returns ok, so no sealed
block is silently produced. -/
theorem publisher_pre_initialize_rejected (s : PublisherState)
    (h : BlockHeader)
    (hph : s.phase = PubPhase.uninitialized ∨ s.phase = PubPhase.abandoned) :
    (∃ e, check_publish_block s = Except.error e) ∧
    (∃ e, finalize_block s h = Except.error e) ∧
    (∀ s2 r h2, finalize_block s h ≠ Except.ok (s2, r, h2)) := by
  obtain ⟨ph, sb, pr, lf, pg⟩ := s
  simp only at hph
  rcases hph with h1 | h1 <;> subst h1 <;>
    exact ⟨⟨_, rfl⟩, ⟨_, rfl⟩, fun s2 r h2 hk => by cases hk⟩

/-- Witness for claim C5: a fresh (uninitialized) publisher instance rejects
a premature poll. -/
theorem publisher_pre_initialize_rejected_witness :
    ∃ e, check_publish_block ⟨PubPhase.uninitialized, true, 2, false, 0⟩ =
      Except.error e :=
  (publisher_pre_initialize_rejected ⟨PubPhase.uninitialized, true, 2, false, 0⟩
    ⟨Option.none, 0, 0, Option.none⟩ (Or.inl rfl)).1

/-- Helper: a successful finalize_block leaves the instance in the Finalized
or Abandoned phase. -/
theorem finalize_ok_phase (s s2 : PublisherState) (h h2 : BlockHeader)
    (r : Bool) (hfin : finalize_block s h = Except.ok (s2, r, h2)) :
    s2.phase = PubPhase.abandoned ∨ s2.phase = PubPhase.finalized := by
  obtain ⟨ph, sb, pr, lf, pg⟩ := s
  cases ph <;> simp only [finalize_block] at hfin
  case ready =>
    cases lf <;> simp only [Bool.false_eq_true, if_true, if_false,
      Except.ok.injEq, Prod.mk.injEq] at hfin
    · exact Or.inr (by rw [← hfin.1])
    · exact Or.inl (by rw [← hfin.1])
  all_goals cases hfin

/-- Helper: finalize_block on an instance in the Finalized or Abandoned
phase is rejected with a detected contract violation. -/
theorem finalize_error_terminal (s : PublisherState) (h : BlockHeader)
    (hph : s.phase = PubPhase.abandoned ∨ s.phase = PubPhase.finalized) :
    ∃ e, finalize_block s h = Except.error e := by
  obtain ⟨ph, sb, pr, lf, pg⟩ := s
  simp only at hph
  rcases hph with h1 | h1 <;> subst h1 <;> exact ⟨_, rfl⟩

/-- Claim C6: after one finalize_block call has returned on a publisher
instance, the resulting internal state makes a second finalize_block call on
that instance detectably invalid. -/
theorem finalize_twice_rejected (s s2 : PublisherState) (h h2 : BlockHeader)
    (r : Bool) (hfin : finalize_block s h = Except.ok (s2, r, h2)) :
    ∃ e, finalize_block s2 h2 = Except.error e :=
  finalize_error_terminal s2 h2 (finalize_ok_phase s s2 h h2 r hfin)

/-- Witness for claim C6: finalizing a ready instance succeeds once, and the
resulting finalized instance rejects a second finalize. -/
theorem finalize_twice_rejected_witness :
    ∃ e, finalize_block ⟨PubPhase.finalized, true, 0, false, 0⟩
      ⟨Option.none, 0, 0, some ⟨0⟩⟩ = Except.error e :=
  finalize_twice_rejected ⟨PubPhase.ready, true, 0, false, 0⟩ _
    ⟨Option.none, 0, 0, Option.none⟩ _ _ rfl

/-- Claim C8: under the ancestor-completeness invariant the controller
maintains on the cache handed to a consensus component (the predecessor of
the handed block and of every cached block is itself cached), the cache
lookup of any ancestor of the handed block, not only its immediate
predecessor, never fails. -/
theorem ancestor_lookup_never_fails (cache : BlockCache) (b : BlockWrapper)
    (hclosed : PredecessorClosed cache b) (aid : Nat)
    (ha : AncestorId cache b aid) :
    ∃ p, lookupBlock cache aid = some p := by
  induction ha with
  | pred pid hp => exact hclosed.1 pid hp
  | step pid qid p hanc hl hq ih => exact hclosed.2 pid p qid hl hq

/-- Witness for claim C8: in a cache holding the genesis block 0 and block 1
on top of it, the grandparent (block 0) of a handed block 2 resolves. -/
theorem ancestor_lookup_never_fails_witness :
    ∃ p, lookupBlock
      [(0, ⟨0, 0, Option.none, 0, Option.none, 0⟩),
        (1, ⟨1, 1, some 0, 0, Option.none, 0⟩)] 0 = some p :=
  ancestor_lookup_never_fails
    [(0, ⟨0, 0, Option.none, 0, Option.none, 0⟩),
      (1, ⟨1, 1, some 0, 0, Option.none, 0⟩)]
    ⟨2, 2, some 1, 0, Option.none, 0⟩
    (by
      constructor
      · intro pid hp
        injection hp with hp1
        subst hp1
        exact ⟨_, rfl⟩
      · intro id bl pid hl hp
        simp only [lookupBlock] at hl
        split_ifs at hl with h0 h1
        · injection hl with hl1
          subst hl1
          cases hp
        · injection hl with hl1
          subst hl1
          injection hp with hp1
          subst hp1
          exact ⟨_, rfl⟩)
    0
    (AncestorId.step 1 0 ⟨1, 1, some 0, 0, Option.none, 0⟩
      (AncestorId.pred 1 rfl) rfl rfl)

end Consensus
